import Mathlib

/-!
Verification development for the grafana reporter program.

The definitions below are a shallow embedding of the Go sources:
  - src/grafana/dashboard.go  (dashboard model normalizer, LaTeX sanitizer)
  - src/grafana/api.go        (rendering client: dashboard fetch, panel image
                               fetch with bounded retries)
  - src/report/texTemplate.go (report assembler: Generate / Clean, the
                               concurrent image acquisition stage fetchImages)

Modelling conventions:
  - Grafana grid coordinates are float64 in Go but are always integral grid
    units; they are modelled as Int, and only their order is ever used.
  - Strings that the code merely transports (titles, bodies, URLs) are Lean
    String values.
  - JSON decoding of one raw panel entry either fails (the entry is skipped
    with a warning) or succeeds; a raw entry is therefore modelled as either
    malformed or an already-decoded record.
  - Go slices built exclusively with append are nil exactly when they are
    empty, so the internal caches processedPanels / processedRows are
    modelled as plain lists whose emptiness plays the role of the Go
    nil-ness test in the memoization guard.
  - Go sort.SliceStable less is the stable sort by the strict comparator
    less; it is modelled as List.mergeSort with the total preorder
    le a b := not (less b a), which computes the same (unique) stable
    sorting of the input.
-/

namespace Reporter

/-- GridPos mirrors struct GridPos of dashboard.go: position and size in the
Grafana grid (fields H, W, X, Y). -/
structure GridPos where
  h : Int
  w : Int
  x : Int
  y : Int
deriving DecidableEq, Repr

/-- PanelData mirrors the scalar fields of struct Panel of dashboard.go:
Id, Type, Title, GridPos, Collapsed. The nested raw Panels field of a row
entry is carried separately by RawEntry (the code expands it exactly one
level deep, and never inspects the nested field of an already-nested
panel). -/
structure PanelData where
  id : Int
  type : String
  title : String
  gridPos : GridPos
  collapsed : Bool
deriving DecidableEq, Repr

/-- RawEntry models one element of the raw panels array of the dashboard
payload, as seen by processPanelsAndRows: either a JSON blob whose
json.Unmarshal into Panel fails (malformed, skipped with a warning), or a
decoded panel together with the decode results of its nested Panels array
(each nested element again either malformed, none, or decoded, some). -/
inductive RawEntry where
  | malformed : RawEntry
  | entry (p : PanelData) (nested : List (Option PanelData)) : RawEntry
deriving DecidableEq, Repr

/-- GrafanaRow mirrors struct GrafanaRow of dashboard.go. -/
structure GrafanaRow where
  id : Int
  title : String
  showtitle : Bool
  contentPanels : List PanelData
  gridPos : GridPos
deriving DecidableEq, Repr

/-- Dashboard mirrors struct Dashboard of dashboard.go, restricted to the
fields the verified operations read: the raw panels and rows arrays and the
two internal caches. A freshly unmarshaled Dashboard has nil caches, which
(per the nil-iff-empty convention above) are empty lists. -/
structure Dashboard where
  title : String
  description : String
  uid : String
  panels : List RawEntry
  rows : List RawEntry
  processedPanels : List PanelData
  processedRows : List GrafanaRow
deriving DecidableEq, Repr

/-- decodedDashboard builds the Dashboard value produced by json.Unmarshal:
the internal caches are nil (empty). -/
def decodedDashboard (title description uid : String)
    (panels rows : List RawEntry) : Dashboard :=
  { title := title, description := description, uid := uid,
    panels := panels, rows := rows,
    processedPanels := [], processedRows := [] }

/-- panelLess mirrors the sort.SliceStable comparator for allPanels in
processPanelsAndRows (dashboard.go lines 220-225): by GridPos.Y, then
GridPos.X. -/
def panelLess (a b : PanelData) : Bool :=
  if a.gridPos.y ≠ b.gridPos.y then decide (a.gridPos.y < b.gridPos.y)
  else decide (a.gridPos.x < b.gridPos.x)

/-- panelLE is the total preorder induced by panelLess; mergeSort with it is
the stable sort computed by sort.SliceStable with panelLess. -/
def panelLE (a b : PanelData) : Bool := !(panelLess b a)

/-- rowLess mirrors the sort.SliceStable comparator for explicitRows in
processPanelsAndRows (dashboard.go lines 226-232): by the GridPos.Y of the
row, then GridPos.X. -/
def rowLess (a b : GrafanaRow) : Bool :=
  if a.gridPos.y ≠ b.gridPos.y then decide (a.gridPos.y < b.gridPos.y)
  else decide (a.gridPos.x < b.gridPos.x)

/-- rowLE is the total preorder induced by rowLess. -/
def rowLE (a b : GrafanaRow) : Bool := !(rowLess b a)

/-- collectEntries is the single pass of processPanelsAndRows (dashboard.go
lines 172-217) over the raw entries: malformed entries are skipped; a row
entry contributes its valid nested panels to the flat list and one
GrafanaRow (Showtitle := not Collapsed, ContentPanels in payload order);
any other entry is appended to the flat list. The dead locals currentY /
currentRowPanels of the source (never read afterwards) are omitted. -/
def collectEntries : List RawEntry → List PanelData × List GrafanaRow
  | [] => ([], [])
  | RawEntry.malformed :: rest => collectEntries rest
  | RawEntry.entry p nested :: rest =>
    let acc := collectEntries rest
    if p.type = "row" then
      let nestedPanels := nested.filterMap id
      (nestedPanels ++ acc.1,
        { id := p.id, title := p.title, showtitle := !p.collapsed,
          contentPanels := nestedPanels, gridPos := p.gridPos } :: acc.2)
    else
      (p :: acc.1, acc.2)

/-- panelSource mirrors the source selection of processPanelsAndRows
(dashboard.go lines 159-165): the panels field, falling back to the
deprecated rows field when panels is empty and rows is not. -/
def panelSource (panels rows : List RawEntry) : List RawEntry :=
  if panels.isEmpty && !rows.isEmpty then rows else panels

/-- computeProcessed is the parsing-and-sorting body of
processPanelsAndRows, run when the memoization guard does not fire. -/
def computeProcessed (panels rows : List RawEntry) :
    List PanelData × List GrafanaRow :=
  let collected := collectEntries (panelSource panels rows)
  (collected.1.mergeSort panelLE, collected.2.mergeSort rowLE)

/-- processPanelsAndRows mirrors Dashboard.processPanelsAndRows
(dashboard.go lines 153-237). The receiver mutation is modelled by
returning the updated Dashboard; the Bool records whether the raw payload
was parsed during this call (false when the guard at line 154 returned
early). The Go guard compares the caches against nil; per the
nil-iff-empty convention this is the emptiness test. -/
def processPanelsAndRows (d : Dashboard) : Dashboard × Bool :=
  if !d.processedPanels.isEmpty || !d.processedRows.isEmpty then (d, false)
  else
    let computed := computeProcessed d.panels d.rows
    ({ d with processedPanels := computed.1, processedRows := computed.2 },
      true)

/-- AccessResult bundles what one call of an accessor yields: its return
value, the dashboard after the call (receiver mutation), and whether the
call parsed the raw payload. -/
structure AccessResult (α : Type) where
  result : α
  dash : Dashboard
  parsed : Bool
deriving Repr

/-- GetGridPanels mirrors Dashboard.GetGridPanels (dashboard.go lines
241-250): process if needed, then keep the processed panels whose type is
not row. -/
def Dashboard.GetGridPanels (d : Dashboard) : AccessResult (List PanelData) :=
  let processed := processPanelsAndRows d
  { result := processed.1.processedPanels.filter (fun p => p.type != "row"),
    dash := processed.1, parsed := processed.2 }

/-- GetRows mirrors Dashboard.GetRows (dashboard.go lines 254-257). -/
def Dashboard.GetRows (d : Dashboard) : AccessResult (List GrafanaRow) :=
  let processed := processPanelsAndRows d
  { result := processed.1.processedRows,
    dash := processed.1, parsed := processed.2 }

/-- IsVisible mirrors GrafanaRow.IsVisible (dashboard.go lines 284-287). -/
def GrafanaRow.IsVisible (r : GrafanaRow) : Bool := r.showtitle

end Reporter

namespace Reporter

/-- panelLE holds exactly for the lexicographic (y, x) non-strict order. -/
theorem panelLE_iff (a b : PanelData) :
    panelLE a b = true ↔
      (a.gridPos.y < b.gridPos.y ∨
        (a.gridPos.y = b.gridPos.y ∧ a.gridPos.x ≤ b.gridPos.x)) := by
  unfold panelLE panelLess
  by_cases h : b.gridPos.y ≠ a.gridPos.y <;> simp [h] <;> omega

/-- panelLE is transitive. -/
theorem panelLE_trans (a b c : PanelData) (hab : panelLE a b = true)
    (hbc : panelLE b c = true) : panelLE a c = true := by
  rw [panelLE_iff] at *
  omega

/-- panelLE is total. -/
theorem panelLE_total (a b : PanelData) :
    (panelLE a b || panelLE b a) = true := by
  rw [Bool.or_eq_true, panelLE_iff, panelLE_iff]
  omega

/-- rowLE holds exactly for the lexicographic (y, x) non-strict order. -/
theorem rowLE_iff (a b : GrafanaRow) :
    rowLE a b = true ↔
      (a.gridPos.y < b.gridPos.y ∨
        (a.gridPos.y = b.gridPos.y ∧ a.gridPos.x ≤ b.gridPos.x)) := by
  unfold rowLE rowLess
  by_cases h : b.gridPos.y ≠ a.gridPos.y <;> simp [h] <;> omega

/-- rowLE is transitive. -/
theorem rowLE_trans (a b c : GrafanaRow) (hab : rowLE a b = true)
    (hbc : rowLE b c = true) : rowLE a c = true := by
  rw [rowLE_iff] at *
  omega

/-- rowLE is total. -/
theorem rowLE_total (a b : GrafanaRow) :
    (rowLE a b || rowLE b a) = true := by
  rw [Bool.or_eq_true, rowLE_iff, rowLE_iff]
  omega

/-- specValidNonRowCount follows the words of claim C3: the number of valid
non-row entries of the payload, counted recursively, including the valid
nested panels inside row containers and skipping malformed entries. -/
def specValidNonRowCount : List RawEntry → Nat
  | [] => 0
  | RawEntry.malformed :: rest => specValidNonRowCount rest
  | RawEntry.entry p nested :: rest =>
    (if p.type = "row"
      then (nested.filterMap id).countP (fun q => q.type != "row")
      else 1) + specValidNonRowCount rest

/-- Filtering the collected flat list down to non-row panels yields exactly
the valid non-row entry count. -/
theorem collectEntries_filter_length (src : List RawEntry) :
    ((collectEntries src).1.filter (fun p => p.type != "row")).length =
      specValidNonRowCount src := by
  induction src with
  | nil => rfl
  | cons e rest ih =>
    cases e with
    | malformed => simpa [collectEntries, specValidNonRowCount] using ih
    | entry p nested =>
      by_cases h : p.type = "row"
      · simp [collectEntries, specValidNonRowCount, h, List.filter_append,
          List.countP_eq_length_filter, ih]
      · simp [collectEntries, specValidNonRowCount, h, ih]
        omega

end Reporter

namespace Reporter

/-- C3: for every raw panel/row payload, the flattened panel list produced
by the normalizer (GetGridPanels on a freshly decoded dashboard) has length
equal to the number of valid non-row entries, counted recursively including
valid nested panels inside row containers with malformed entries skipped,
and is sorted by grid Y then X coordinate, stably: two non-row panels with
the same (y, x) key keep the relative order they have in the collection
(payload) order. -/
theorem gridPanels_length_sorted_stable (title description uid : String)
    (panels rows : List RawEntry) :
    (decodedDashboard title description uid panels rows).GetGridPanels.result.length
        = specValidNonRowCount (panelSource panels rows)
    ∧ (decodedDashboard title description uid panels rows).GetGridPanels.result.Pairwise
        (fun a b => a.gridPos.y < b.gridPos.y ∨
          (a.gridPos.y = b.gridPos.y ∧ a.gridPos.x ≤ b.gridPos.x))
    ∧ (∀ a b : PanelData, a.gridPos.y = b.gridPos.y →
        a.gridPos.x = b.gridPos.x → a.type ≠ "row" → b.type ≠ "row" →
        [a, b].Sublist (collectEntries (panelSource panels rows)).1 →
        [a, b].Sublist
          (decodedDashboard title description uid panels rows).GetGridPanels.result) := by
  have hflat :
      (decodedDashboard title description uid panels rows).GetGridPanels.result
        = ((collectEntries (panelSource panels rows)).1.mergeSort panelLE).filter
            (fun p => p.type != "row") := rfl
  refine ⟨?_, ?_, ?_⟩
  · rw [hflat]
    have hperm :
        (((collectEntries (panelSource panels rows)).1.mergeSort panelLE).filter
            (fun p => p.type != "row")).Perm
          ((collectEntries (panelSource panels rows)).1.filter
            (fun p => p.type != "row")) :=
      (List.mergeSort_perm _ _).filter _
    rw [hperm.length_eq, collectEntries_filter_length]
  · rw [hflat]
    have hs := List.sorted_mergeSort panelLE_trans panelLE_total
      (collectEntries (panelSource panels rows)).1
    have hsub := List.filter_sublist
      (p := fun p => p.type != "row")
      ((collectEntries (panelSource panels rows)).1.mergeSort panelLE)
    exact (List.Pairwise.sublist hsub hs).imp (fun h => (panelLE_iff _ _).mp h)
  · intro a b hy hx ha hb hsubc
    have hle : panelLE a b = true := by
      rw [panelLE_iff]
      exact Or.inr ⟨hy, le_of_eq hx⟩
    have h2 := List.pair_sublist_mergeSort panelLE_trans panelLE_total hle hsubc
    have h3 := h2.filter (fun p => p.type != "row")
    have ha' : (a.type != "row") = true := by simpa using ha
    have hb' : (b.type != "row") = true := by simpa using hb
    have hab : [a, b].filter (fun p => p.type != "row") = [a, b] := by
      simp [List.filter, ha', hb']
    rw [hab] at h3
    rw [hflat]
    exact h3

end Reporter

namespace Reporter

/-- rowOf describes which raw entries become GrafanaRows in the single pass
of processPanelsAndRows: exactly the well-formed entries of type row, with
Showtitle the negation of Collapsed and ContentPanels the valid nested
panels in payload order (dashboard.go lines 180-204). -/
def rowOf : RawEntry → Option GrafanaRow
  | RawEntry.malformed => none
  | RawEntry.entry p nested =>
    if p.type = "row" then
      some { id := p.id, title := p.title, showtitle := !p.collapsed,
             contentPanels := nested.filterMap id, gridPos := p.gridPos }
    else none

/-- isRowEntry recognises the well-formed row-container entries of the
payload. -/
def isRowEntry : RawEntry → Bool
  | RawEntry.malformed => false
  | RawEntry.entry p _ => p.type == "row"

/-- The row component of collectEntries is the filterMap of rowOf. -/
theorem collectEntries_snd (src : List RawEntry) :
    (collectEntries src).2 = src.filterMap rowOf := by
  induction src with
  | nil => rfl
  | cons e rest ih =>
    cases e with
    | malformed => simpa [collectEntries, rowOf] using ih
    | entry p nested =>
      by_cases h : p.type = "row"
      · simp [collectEntries, rowOf, h, ih]
      · simp [collectEntries, rowOf, h, ih]

/-- The number of rows produced equals the number of well-formed
row-container entries. -/
theorem filterMap_rowOf_length (src : List RawEntry) :
    (src.filterMap rowOf).length = src.countP isRowEntry := by
  induction src with
  | nil => rfl
  | cons e rest ih =>
    cases e with
    | malformed => simpa [rowOf, isRowEntry, List.countP_cons] using ih
    | entry p nested =>
      by_cases h : p.type = "row"
      · simp [rowOf, isRowEntry, List.countP_cons, h, ih]
      · simp [rowOf, isRowEntry, List.countP_cons, h, ih]

/-- GetRows on a freshly decoded dashboard is the stable (y, x) sort of the
rows read off the selected payload. -/
theorem GetRows_decoded_eq (title description uid : String)
    (panels rows : List RawEntry) :
    (decodedDashboard title description uid panels rows).GetRows.result
      = ((panelSource panels rows).filterMap rowOf).mergeSort rowLE := by
  have h : (decodedDashboard title description uid panels rows).GetRows.result
      = (collectEntries (panelSource panels rows)).2.mergeSort rowLE := rfl
  rw [h, collectEntries_snd]

/-- specSortedByYX follows the words of claims C3/C4: a panel list is in
(y, x) order when each consecutive pair is non-decreasing in the
lexicographic (y, x) key. -/
def specSortedByYX : List PanelData → Bool
  | [] => true
  | [_] => true
  | a :: b :: rest => panelLE a b && specSortedByYX (b :: rest)

end Reporter

namespace Reporter

/-- C4 (amended): for every payload, GetRows on a freshly decoded dashboard
returns exactly as many rows as the payload has well-formed row-container
entries, sorted by (y, x); every returned row comes from a row-container
entry of the payload, its visibility flag is the negation of the collapsed
mark of that entry, and its nested panel list is the valid nested panels of
that entry in payload order (the code does not sort nested panel lists). -/
theorem rows_count_sorted_visibility (title description uid : String)
    (panels rows : List RawEntry) :
    (decodedDashboard title description uid panels rows).GetRows.result
        = ((panelSource panels rows).filterMap rowOf).mergeSort rowLE
    ∧ (decodedDashboard title description uid panels rows).GetRows.result.length
        = (panelSource panels rows).countP isRowEntry
    ∧ (decodedDashboard title description uid panels rows).GetRows.result.Pairwise
        (fun a b => a.gridPos.y < b.gridPos.y ∨
          (a.gridPos.y = b.gridPos.y ∧ a.gridPos.x ≤ b.gridPos.x))
    ∧ (∀ r ∈ (decodedDashboard title description uid panels rows).GetRows.result,
        ∃ p nested, RawEntry.entry p nested ∈ panelSource panels rows
          ∧ p.type = "row" ∧ r.id = p.id ∧ r.title = p.title
          ∧ r.IsVisible = !p.collapsed
          ∧ r.contentPanels = nested.filterMap id) := by
  have heq := GetRows_decoded_eq title description uid panels rows
  refine ⟨heq, ?_, ?_, ?_⟩
  · rw [heq, (List.mergeSort_perm _ _).length_eq, filterMap_rowOf_length]
  · rw [heq]
    exact (List.sorted_mergeSort rowLE_trans rowLE_total _).imp
      (fun h => (rowLE_iff _ _).mp h)
  · intro r hr
    rw [heq] at hr
    have hr2 : r ∈ (panelSource panels rows).filterMap rowOf :=
      (List.mergeSort_perm _ _).mem_iff.mp hr
    rcases List.mem_filterMap.mp hr2 with ⟨e, he, hsome⟩
    cases e with
    | malformed => simp [rowOf] at hsome
    | entry p nested =>
      by_cases h : p.type = "row"
      · refine ⟨p, nested, he, h, ?_⟩
        rw [rowOf, if_pos h] at hsome
        cases hsome
        exact ⟨rfl, rfl, rfl, rfl⟩
      · rw [rowOf, if_neg h] at hsome
        cases hsome

end Reporter

namespace Reporter

/-- Concrete payload for the C3 witness: two panels sharing the same grid
key, in payload order A then B. -/
def c3PanelA : PanelData :=
  { id := 1, type := "graph", title := "a",
    gridPos := { h := 1, w := 1, x := 0, y := 0 }, collapsed := false }

/-- Second panel of the C3 witness payload, same (y, x) key as c3PanelA. -/
def c3PanelB : PanelData :=
  { id := 2, type := "table", title := "b",
    gridPos := { h := 1, w := 1, x := 0, y := 0 }, collapsed := false }

/-- Payload of the C3 witness. -/
def c3Payload : List RawEntry :=
  [RawEntry.entry c3PanelA [], RawEntry.entry c3PanelB []]

/-- Witness for C3: at a concrete two-panel payload the flattened list has
the counted length and keeps the payload order of the two equal-key
panels. -/
theorem gridPanels_length_sorted_stable_witness :
    (decodedDashboard "t" "d" "u" c3Payload []).GetGridPanels.result.length
        = specValidNonRowCount (panelSource c3Payload [])
    ∧ [c3PanelA, c3PanelB].Sublist
        (decodedDashboard "t" "d" "u" c3Payload []).GetGridPanels.result := by
  have h := gridPanels_length_sorted_stable "t" "d" "u" c3Payload []
  refine ⟨h.1, h.2.2 c3PanelA c3PanelB rfl rfl (by decide) (by decide) ?_⟩
  decide

/-- Concrete out-of-order nested payload for the C4 counterexample: a row
whose nested panels appear with grid y = 2 before grid y = 1. -/
def c4NestedHigh : PanelData :=
  { id := 21, type := "graph", title := "high",
    gridPos := { h := 8, w := 12, x := 0, y := 2 }, collapsed := false }

/-- Nested panel with the smaller y coordinate, second in payload order. -/
def c4NestedLow : PanelData :=
  { id := 22, type := "graph", title := "low",
    gridPos := { h := 8, w := 12, x := 0, y := 1 }, collapsed := false }

/-- Row-container entry whose nested panels are out of (y, x) order. -/
def c4RowEntry : RawEntry :=
  RawEntry.entry
    { id := 20, type := "row", title := "r",
      gridPos := { h := 1, w := 24, x := 0, y := 0 }, collapsed := false }
    [some c4NestedHigh, some c4NestedLow]

/-- Counterexample for C4 as stated: the returned row's nested panel list is
not in (y, x) order — it stays in payload order [y = 2, y = 1]. -/
theorem rows_nested_unsorted_counterexample :
    ((decodedDashboard "t" "d" "u" [c4RowEntry] []).GetRows.result.all
        (fun r => specSortedByYX r.contentPanels)) = false := by
  rw [GetRows_decoded_eq, List.mergeSort_of_sorted (by decide)]
  decide

/-- Row-container entry of the C4 witness payload, marked collapsed. -/
def c4RowEntryData : PanelData :=
  { id := 7, type := "row", title := "Row7",
    gridPos := { h := 1, w := 24, x := 0, y := 0 }, collapsed := true }

/-- Valid nested panel of the C4 witness payload. -/
def c4NestedPanel : PanelData :=
  { id := 8, type := "graph", title := "P8",
    gridPos := { h := 8, w := 12, x := 0, y := 1 }, collapsed := false }

/-- Payload of the C4 witness: one collapsed row with one valid and one
malformed nested entry. -/
def c4Payload : List RawEntry :=
  [RawEntry.entry c4RowEntryData [some c4NestedPanel, none]]

/-- The row GetRows produces from c4Payload. -/
def c4Row : GrafanaRow :=
  { id := 7, title := "Row7", showtitle := false,
    contentPanels := [c4NestedPanel],
    gridPos := { h := 1, w := 24, x := 0, y := 0 } }

/-- Witness for the amended C4 at a concrete payload: one row, sourced from
the collapsed row-container, invisible, nested panels in payload order. -/
theorem rows_count_sorted_visibility_witness :
    (decodedDashboard "t" "d" "u" c4Payload []).GetRows.result.length
        = (panelSource c4Payload []).countP isRowEntry
    ∧ ∃ p nested, RawEntry.entry p nested ∈ panelSource c4Payload []
        ∧ p.type = "row" ∧ c4Row.id = p.id ∧ c4Row.title = p.title
        ∧ c4Row.IsVisible = !p.collapsed
        ∧ c4Row.contentPanels = nested.filterMap id := by
  have h := rows_count_sorted_visibility "t" "d" "u" c4Payload []
  refine ⟨h.2.1, h.2.2.2 c4Row ?_⟩
  rw [h.1, List.mergeSort_of_sorted (by decide)]
  decide

end Reporter

namespace Reporter

/-- When at least one cache is non-empty (non-nil in Go), the memoization
guard of processPanelsAndRows fires and nothing is parsed. -/
theorem process_of_guard (d : Dashboard)
    (h : (d.processedPanels.isEmpty && d.processedRows.isEmpty) = false) :
    processPanelsAndRows d = (d, false) := by
  rw [processPanelsAndRows, if_pos]
  cases hp : d.processedPanels.isEmpty <;> cases hr : d.processedRows.isEmpty <;>
    simp_all

/-- When both caches are empty (nil in Go), processPanelsAndRows parses the
payload and fills the caches. -/
theorem process_of_no_guard (d : Dashboard)
    (hp : d.processedPanels = []) (hr : d.processedRows = []) :
    processPanelsAndRows d =
      ({ d with processedPanels := (computeProcessed d.panels d.rows).1,
                processedRows := (computeProcessed d.panels d.rows).2 },
        true) := by
  have hg : ¬((!d.processedPanels.isEmpty || !d.processedRows.isEmpty) = true) := by
    simp [hp, hr]
  rw [processPanelsAndRows, if_neg hg]

/-- Running processPanelsAndRows a second time leaves the dashboard
unchanged; it re-parses exactly when the first run left both caches
empty. -/
theorem processPanelsAndRows_idem (d : Dashboard) :
    processPanelsAndRows (processPanelsAndRows d).1
      = ((processPanelsAndRows d).1,
          (processPanelsAndRows d).1.processedPanels.isEmpty
            && (processPanelsAndRows d).1.processedRows.isEmpty) := by
  by_cases h : (d.processedPanels.isEmpty && d.processedRows.isEmpty) = false
  · rw [process_of_guard d h]
    rw [process_of_guard d h, h]
  · have hpe : d.processedPanels = [] := by
      cases hp : d.processedPanels.isEmpty <;> simp_all [List.isEmpty_iff]
    have hre : d.processedRows = [] := by
      cases hp : d.processedRows.isEmpty <;> simp_all [List.isEmpty_iff]
    rw [process_of_no_guard d hpe hre]
    by_cases h2 : ((computeProcessed d.panels d.rows).1.isEmpty
        && (computeProcessed d.panels d.rows).2.isEmpty) = false
    · rw [process_of_guard _ (by simpa using h2)]
      simp [h2]
    · have hc1 : (computeProcessed d.panels d.rows).1 = [] := by
        cases hp : (computeProcessed d.panels d.rows).1.isEmpty <;>
          simp_all [List.isEmpty_iff]
      have hc2 : (computeProcessed d.panels d.rows).2 = [] := by
        cases hp : (computeProcessed d.panels d.rows).2.isEmpty <;>
          simp_all [List.isEmpty_iff]
      rw [process_of_no_guard _ (by simp [hc1]) (by simp [hc2])]
      simp [hc1, hc2]

/-- C7 (amended): calling GetGridPanels or GetRows a second time returns
the same result and the same dashboard as the first call; the second call
skips parsing exactly when the first call left at least one cache
non-empty (for a payload yielding no panels and no rows, both caches stay
empty — nil in Go — and the second call parses the payload again). -/
theorem accessors_idempotent_memoized (d : Dashboard) :
    d.GetGridPanels.dash.GetGridPanels.result = d.GetGridPanels.result
    ∧ d.GetGridPanels.dash.GetGridPanels.dash = d.GetGridPanels.dash
    ∧ d.GetGridPanels.dash.GetGridPanels.parsed
        = (d.GetGridPanels.dash.processedPanels.isEmpty
            && d.GetGridPanels.dash.processedRows.isEmpty)
    ∧ d.GetRows.dash.GetRows.result = d.GetRows.result
    ∧ d.GetRows.dash.GetRows.dash = d.GetRows.dash
    ∧ d.GetRows.dash.GetRows.parsed
        = (d.GetRows.dash.processedPanels.isEmpty
            && d.GetRows.dash.processedRows.isEmpty) := by
  have h := processPanelsAndRows_idem d
  refine ⟨?_, ?_, ?_, ?_, ?_, ?_⟩ <;>
    simp [Dashboard.GetGridPanels, Dashboard.GetRows, h]

/-- Counterexample for C7 as stated: on a dashboard whose payload yields no
panels and no rows (here: an empty payload), the second accessor call
re-invokes parsing of the raw payload — the memoization guard never
fires because the caches remain nil. -/
theorem accessors_reparse_counterexample :
    (decodedDashboard "t" "d" "u" [] []).GetGridPanels.dash.GetGridPanels.parsed
      = true := by
  have hc : computeProcessed ([] : List RawEntry) ([] : List RawEntry)
      = ([], []) := by
    simp [computeProcessed, panelSource, collectEntries]
  have h1 : processPanelsAndRows (decodedDashboard "t" "d" "u" [] [])
      = (decodedDashboard "t" "d" "u" [] [], true) := by
    rw [process_of_no_guard _ rfl rfl]
    show (({ decodedDashboard "t" "d" "u" [] [] with
      processedPanels := (computeProcessed [] []).1,
      processedRows := (computeProcessed [] []).2 } : Dashboard), true) = _
    rw [hc]
    rfl
  simp [Dashboard.GetGridPanels, h1]

end Reporter

namespace Reporter

/-- replaceAllGo is the fuel-driven scan behind replaceAll: at each
position, when the (non-empty) pattern is a prefix, emit the replacement
and skip the pattern, otherwise keep one character; this is the
left-to-right non-overlapping replacement performed by Go
strings.ReplaceAll for a non-empty pattern. The fuel only serves
structural termination; fuel equal to the input length is always
sufficient because every step consumes at least one character. -/
def replaceAllGo (old new : List Char) : Nat → List Char → List Char
  | _, [] => []
  | 0, s => s
  | Nat.succ fuel, c :: rest =>
    if !old.isEmpty && old.isPrefixOf (c :: rest) then
      new ++ replaceAllGo old new fuel ((c :: rest).drop old.length)
    else
      c :: replaceAllGo old new fuel rest

/-- replaceAll models Go strings.ReplaceAll(s, old, new) for non-empty old
(the sanitizer only ever uses non-empty patterns). -/
def replaceAll (s old new : List Char) : List Char :=
  replaceAllGo old new s.length s

/-- backslashPlaceholder is the temporary placeholder used by
SanitizeLaTexInput (dashboard.go line 302). -/
def backslashPlaceholder : List Char := "___TEMP_BACKSLASH___".toList

/-- SanitizeLaTexInput mirrors SanitizeLaTexInput (dashboard.go lines
300-321): backslashes become the placeholder, the special characters are
escaped in source order, and finally the placeholder is replaced by the
LaTeX textbackslash command. Strings are modelled as character lists. -/
def SanitizeLaTexInput (input : List Char) : List Char :=
  let s1 := replaceAll input ['\\'] backslashPlaceholder
  let s2 := replaceAll s1 ['&'] ['\\', '&']
  let s3 := replaceAll s2 ['%'] ['\\', '%']
  let s4 := replaceAll s3 ['$'] ['\\', '$']
  let s5 := replaceAll s4 ['#'] ['\\', '#']
  let s6 := replaceAll s5 ['_'] ['\\', '_']
  let s7 := replaceAll s6 ['\x7b'] ['\\', '\x7b']
  let s8 := replaceAll s7 ['\x7d'] ['\\', '\x7d']
  let s9 := replaceAll s8 ['~'] ("\\textasciitilde".toList ++ ['\x7b', '\x7d'])
  let s10 := replaceAll s9 ['^'] ("\\textasciicircum".toList ++ ['\x7b', '\x7d'])
  replaceAll s10 backslashPlaceholder ("\\textbackslash".toList ++ ['\x7b', '\x7d'])

/-- C10 evaluated at the failing input: a lone backslash is NOT rendered as
the LaTeX textbackslash command; because the underscore-escaping pass
rewrites the underscores inside the placeholder, the final placeholder
replacement finds nothing, and the output is the escaped placeholder text
itself — visible residue of the internal placeholder. -/
theorem sanitize_backslash_residue :
    SanitizeLaTexInput ['\\']
        = "\\_\\_\\_TEMP\\_BACKSLASH\\_\\_\\_".toList
    ∧ SanitizeLaTexInput ['\\']
        ≠ ("\\textbackslash".toList ++ ['\x7b', '\x7d']) := by
  constructor <;> decide

end Reporter

namespace Reporter

/-- isUIDLike mirrors the UID heuristic of GetDashboard (api.go lines
465-474): byte length greater than 8 and every rune alphanumeric or a
dash. -/
def isUIDLike (s : String) : Bool :=
  s.utf8ByteSize > 8 && s.toList.all (fun r =>
    (decide ('a' ≤ r) && decide (r ≤ 'z'))
    || (decide ('A' ≤ r) && decide (r ≤ 'Z'))
    || (decide ('0' ≤ r) && decide (r ≤ '9'))
    || r == '-')

/-- resolveUid mirrors the identifier-fallback logic of GetDashboard
(api.go lines 464-487): an empty payload uid is replaced by the
caller-supplied name when it looks like a UID, otherwise by the payload
meta slug when non-empty, otherwise by the caller-supplied name. -/
def resolveUid (payloadUid dashName metaSlug : String) : String :=
  if payloadUid ≠ "" then payloadUid
  else if isUIDLike dashName then dashName
  else if metaSlug ≠ "" then metaSlug
  else dashName

/-- Counterexample for C9 as stated: with an empty payload uid, a short
dashboard name and a non-empty meta slug, the resolved identifier is the
slug, not the caller-supplied dashboard name. -/
theorem resolveUid_slug_counterexample :
    resolveUid "" "short" "myslug" = "myslug"
    ∧ resolveUid "" "short" "myslug" ≠ "short" := by
  constructor <;> decide

/-- C9 (amended): when the payload uid is absent, the fetched dashboard
carries a non-empty fallback identifier — the caller-supplied name when it
looks like a UID, otherwise the payload meta slug when non-empty, otherwise
the caller-supplied name — so it is non-empty whenever the caller-supplied
name is. -/
theorem resolveUid_fallback (dashName metaSlug : String)
    (h : dashName ≠ "") :
    resolveUid "" dashName metaSlug
        = (if isUIDLike dashName then dashName
           else if metaSlug ≠ "" then metaSlug else dashName)
    ∧ resolveUid "" dashName metaSlug ≠ "" := by
  constructor
  · rw [resolveUid, if_neg (by simp)]
  · rw [resolveUid, if_neg (by simp)]
    split_ifs <;> simp_all

/-- Witness for the amended C9 at a concrete non-empty dashboard name. -/
theorem resolveUid_fallback_witness :
    resolveUid "" "mydash" ""
        = (if isUIDLike "mydash" then "mydash"
           else if "" ≠ "" then "" else "mydash")
    ∧ resolveUid "" "mydash" "" ≠ "" :=
  resolveUid_fallback "mydash" "" (by decide)

end Reporter

namespace Reporter

/-- TimeRange mirrors struct TimeRange (From, To). -/
structure TimeRange where
  From : String
  To : String
deriving DecidableEq, Repr

/-- varKey mirrors the variable-key normalization of GetPanelPng (api.go
lines 523-531): keys shorter than 4 bytes or not starting with var- get
the var- prefix. Go inspects the first 4 bytes; the model uses the first 4
characters, which coincides for the ASCII keys Grafana variables use. -/
def varKey (k : String) : String :=
  if k.length < 4 || k.take 4 != "var-" then "var-" ++ k else k

/-- getPanelPngVals mirrors the URL query parameters built by GetPanelPng
(api.go lines 513-531): fixed panelId, width 1000, height 500, tz, from,
to, followed by the var-prefixed template variables. Go stores them in
url.Values (a map); the model keeps insertion order, which no claim
depends on. -/
def getPanelPngVals (p : PanelData) (t : TimeRange)
    (vars : List (String × String)) : List (String × String) :=
  [("panelId", toString p.id), ("width", "1000"), ("height", "500"),
    ("tz", "UTC"), ("from", t.From), ("to", t.To)]
  ++ vars.map (fun kv => (varKey kv.1, kv.2))

/-- GetPanelPng mirrors the argument validation and request construction of
GetPanelPng (api.go lines 509-545): an empty dashboard UID is rejected,
otherwise the request parameters are built. The HTTP execution is
makeRenderRequest, modelled separately. -/
def GetPanelPng (p : PanelData) (dashUID : String) (t : TimeRange)
    (vars : List (String × String)) :
    Except String (List (String × String)) :=
  if dashUID = "" then
    Except.error ("error rendering panel " ++ toString p.id
      ++ ": dashboard UID is empty")
  else Except.ok (getPanelPngVals p t vars)

/-- specPanelDims follows the words of claim C8: grid-derived dimensions (a
fixed multiplier of 40) in fit-to-grid mode, otherwise fixed pairs keyed by
panel type — smaller for stat panels, wider for text panels, a default for
the rest. (This is the policy of the retired getPanelURL helper; the
current GetPanelPng does not implement it.) -/
def specPanelDims (gridLayout : Bool) (p : PanelData) : String × String :=
  if gridLayout then
    (toString (p.gridPos.w * 40), toString (p.gridPos.h * 40))
  else if p.type = "singlestat" then ("300", "150")
  else if p.type = "text" then ("1000", "100")
  else ("1000", "500")

/-- Stat panel used by the C8 counterexample. -/
def c8StatPanel : PanelData :=
  { id := 3, type := "singlestat", title := "s",
    gridPos := { h := 4, w := 6, x := 0, y := 0 }, collapsed := false }

/-- Time range used by the C8 counterexample and witness. -/
def c8Time : TimeRange := { From := "now-1h", To := "now" }

/-- Counterexample for C8 as stated: for a stat panel outside fit-to-grid
mode the claimed policy selects 300x150, but the request built by
GetPanelPng carries width 1000 and height 500 and no width 300. -/
theorem getPanelPng_dims_counterexample :
    specPanelDims false c8StatPanel = ("300", "150")
    ∧ ("width", "1000") ∈ getPanelPngVals c8StatPanel c8Time []
    ∧ ("width", "300") ∉ getPanelPngVals c8StatPanel c8Time [] := by
  refine ⟨by decide, by decide, by decide⟩

/-- C8 (amended): the requested pixel dimensions are always the fixed pair
width 1000, height 500: the six fixed parameters of every panel image
request are independent of the panel's type and grid size (no fit-to-grid
branch exists in GetPanelPng), and no template variable can introduce
another width or height parameter because every variable key is var-
prefixed. -/
theorem getPanelPng_fixed_dims (p : PanelData) (t : TimeRange)
    (vars : List (String × String)) :
    (getPanelPngVals p t vars).take 6
        = [("panelId", toString p.id), ("width", "1000"),
           ("height", "500"), ("tz", "UTC"), ("from", t.From),
           ("to", t.To)]
    ∧ (∀ v, ("width", v) ∈ getPanelPngVals p t vars → v = "1000")
    ∧ (∀ v, ("height", v) ∈ getPanelPngVals p t vars → v = "500") := by
  have hkey : ∀ k, varKey k ≠ "width" ∧ varKey k ≠ "height" := by
    intro k
    rw [varKey]
    split_ifs with hc
    · constructor <;>
      · intro h
        have h2 := congrArg String.data h
        simp [String.data_append] at h2
    · simp only [Bool.or_eq_true, not_or, Bool.not_eq_true] at hc
      constructor <;>
      · rintro rfl
        revert hc
        decide
  refine ⟨List.take_left' rfl, ?_, ?_⟩ <;>
  · intro v hv
    rcases List.mem_append.mp hv with hfix | hvar
    · simp [Prod.mk.injEq] at hfix
      exact hfix
    · rcases List.mem_map.mp hvar with ⟨kv, _, hkv⟩
      have hk := hkey kv.1
      have hfst := congrArg Prod.fst hkv
      simp only at hfst
      exact absurd hfst (by tauto)

/-- Witness for the amended C8 at a concrete request. -/
theorem getPanelPng_fixed_dims_witness :
    (getPanelPngVals c8StatPanel c8Time [("host", "web1")]).take 6
        = [("panelId", toString c8StatPanel.id), ("width", "1000"),
           ("height", "500"), ("tz", "UTC"), ("from", c8Time.From),
           ("to", c8Time.To)]
    ∧ "1000" = "1000" := by
  have h := getPanelPng_fixed_dims c8StatPanel c8Time [("host", "web1")]
  exact ⟨h.1, h.2.1 "1000" (by decide)⟩

end Reporter

namespace Reporter

/-- limitString mirrors limitString (api.go lines 497-506). -/
def limitString (s : String) (maxLen : Nat) : String :=
  if s.utf8ByteSize ≤ maxLen then s
  else if s.length ≤ maxLen then s
  else String.mk (s.toList.take maxLen) ++ "..."

/-- maxGetPanelRetries mirrors the constant at api.go line 361. The code
logs each attempt as attempt i of maxGetPanelRetries + 1, i.e. the
configured maximum number of attempts is maxGetPanelRetries + 1 (the
initial attempt plus maxGetPanelRetries retries). -/
def maxGetPanelRetries : Nat := 3

/-- RenderOutcome is what one execution of the render HTTP request can
observe: a transport error (timeout or other), or a response with a status
code and body. -/
inductive RenderOutcome where
  | transportError (timeout : Bool) : RenderOutcome
  | response (status : Nat) (body : String) : RenderOutcome
deriving DecidableEq, Repr

/-- RenderError mirrors the distinct error returns of makeRenderRequest
(api.go lines 548-628), carrying the data each fmt.Errorf interpolates. -/
inductive RenderError where
  | transportFailed (renderType : String) (id : Int) (url : String)
      (retries : Nat) : RenderError
  | notFound (renderType : String) (id : Int) (url : String) : RenderError
  | authFailed (renderType : String) (id : Int) (status : Nat)
      (url : String) (bodySnippet : String) : RenderError
  | clientError (renderType : String) (id : Int) (status : Nat)
      (url : String) (bodySnippet : String) : RenderError
  | retriesExhausted (renderType : String) (id : Int) (retries : Nat)
      (lastStatus : Nat) (url : String) (bodySnippet : String) : RenderError
  | loopExit (renderType : String) (id : Int) : RenderError
deriving DecidableEq, Repr

/-- renderLoopAux is the retry loop of makeRenderRequest (api.go lines
575-625), one fuel unit per permitted loop iteration; o n is the outcome of
the attempt with loop counter n. The result pairs the loop's return value
(ok with the index of the successful attempt) with the number of attempts
executed. Fuel exhaustion models the fall-through return after the loop
(api.go line 627), which is unreachable from makeRenderRequest. -/
def renderLoopAux (o : Nat → RenderOutcome) (id : Int)
    (renderType url : String) :
    Nat → Nat → (Except RenderError Nat) × Nat
  | 0, _ => (Except.error (RenderError.loopExit renderType id), 0)
  | Nat.succ fuel, retries =>
    match o retries with
    | RenderOutcome.transportError _ =>
      if retries = maxGetPanelRetries then
        (Except.error (RenderError.transportFailed renderType id url
          maxGetPanelRetries), 1)
      else
        let r := renderLoopAux o id renderType url fuel (retries + 1)
        (r.1, r.2 + 1)
    | RenderOutcome.response s b =>
      if s = 200 then (Except.ok retries, 1)
      else if s = 404 then
        (Except.error (RenderError.notFound renderType id url), 1)
      else if s = 401 ∨ s = 403 then
        (Except.error (RenderError.authFailed renderType id s url
          (limitString b 200)), 1)
      else if 500 ≤ s then
        if retries = maxGetPanelRetries then
          (Except.error (RenderError.retriesExhausted renderType id
            maxGetPanelRetries s url (limitString b 200)), 1)
        else
          let r := renderLoopAux o id renderType url fuel (retries + 1)
          (r.1, r.2 + 1)
      else
        (Except.error (RenderError.clientError renderType id s url
          (limitString b 200)), 1)

/-- makeRenderRequest mirrors makeRenderRequest (api.go lines 548-628): the
loop runs with counter 0 to maxGetPanelRetries. The second component is the
total number of HTTP attempts executed. -/
def makeRenderRequest (o : Nat → RenderOutcome) (id : Int)
    (renderType url : String) : (Except RenderError Nat) × Nat :=
  renderLoopAux o id renderType url (maxGetPanelRetries + 1) 0

end Reporter

namespace Reporter

/-- C5: when every attempt observes HTTP status 500, makeRenderRequest
executes exactly the configured maximum number of attempts
(maxGetPanelRetries + 1, the total the code itself logs as
attempt i of maxGetPanelRetries + 1) and then fails with the
retries-exhausted error naming the panel id, the last observed status and
the body snippet. -/
theorem renderRequest_500_exhausts (o : Nat → RenderOutcome) (id : Int)
    (renderType url body : String)
    (h : ∀ n, o n = RenderOutcome.response 500 body) :
    makeRenderRequest o id renderType url
      = (Except.error (RenderError.retriesExhausted renderType id
          maxGetPanelRetries 500 url (limitString body 200)),
         maxGetPanelRetries + 1) := by
  have h0 := h 0
  have h1 := h 1
  have h2 := h 2
  have h3 := h 3
  simp [makeRenderRequest, renderLoopAux, maxGetPanelRetries, h0, h1, h2, h3]

/-- Witness for C5 at a concrete outcome stream that always returns 500. -/
theorem renderRequest_500_exhausts_witness :
    makeRenderRequest (fun _ => RenderOutcome.response 500 "boom") 5 "panel"
        "u"
      = (Except.error (RenderError.retriesExhausted "panel" 5
          maxGetPanelRetries 500 "u" (limitString "boom" 200)),
         maxGetPanelRetries + 1) :=
  renderRequest_500_exhausts (fun _ => RenderOutcome.response 500 "boom") 5
    "panel" "u" "boom" (fun _ => rfl)

end Reporter

namespace Reporter

/-- C6: per-attempt status policy of makeRenderRequest. A 401 or 403 on
the first attempt is never retried and surfaces as the distinct
authorization error; any other 4xx on the first attempt fails immediately
(not found for 404, client error otherwise) with no retry; a 5xx or a
transport error (timeout) is retried — shown by a 5xx or timeout first
attempt followed by a 200 succeeding on the second attempt — and transport
errors are retried only up to the bound, after which the transport error
surfaces. -/
theorem render_retry_policy (o : Nat → RenderOutcome) (id : Int)
    (renderType url : String) :
    (∀ s b, o 0 = RenderOutcome.response s b → s = 401 ∨ s = 403 →
      makeRenderRequest o id renderType url
        = (Except.error (RenderError.authFailed renderType id s url
            (limitString b 200)), 1))
    ∧ (∀ s b, o 0 = RenderOutcome.response s b → 400 ≤ s → s < 500 →
        s ≠ 401 → s ≠ 403 →
        makeRenderRequest o id renderType url
          = (Except.error (if s = 404 then
              RenderError.notFound renderType id url
            else RenderError.clientError renderType id s url
              (limitString b 200)), 1))
    ∧ (∀ s b b2, o 0 = RenderOutcome.response s b → 500 ≤ s →
        o 1 = RenderOutcome.response 200 b2 →
        makeRenderRequest o id renderType url = (Except.ok 1, 2))
    ∧ (∀ tb b2, o 0 = RenderOutcome.transportError tb →
        o 1 = RenderOutcome.response 200 b2 →
        makeRenderRequest o id renderType url = (Except.ok 1, 2))
    ∧ ((∀ n, o n = RenderOutcome.transportError true) →
        makeRenderRequest o id renderType url
          = (Except.error (RenderError.transportFailed renderType id url
              maxGetPanelRetries), maxGetPanelRetries + 1)) := by
  refine ⟨?_, ?_, ?_, ?_, ?_⟩
  · intro s b h0 hs
    rcases hs with rfl | rfl <;>
      simp [makeRenderRequest, renderLoopAux, maxGetPanelRetries, h0]
  · intro s b h0 h400 h500 h401 h403
    have hne200 : s ≠ 200 := by omega
    have hne500 : ¬(500 ≤ s) := by omega
    by_cases h404 : s = 404 <;>
      simp [makeRenderRequest, renderLoopAux, maxGetPanelRetries, h0,
        hne200, hne500, h401, h403, h404]
  · intro s b b2 h0 hs h1
    have hne200 : s ≠ 200 := by omega
    have hne404 : s ≠ 404 := by omega
    have hne401 : s ≠ 401 := by omega
    have hne403 : s ≠ 403 := by omega
    simp [makeRenderRequest, renderLoopAux, maxGetPanelRetries, h0, h1,
      hne200, hne404, hne401, hne403, hs]
  · intro tb b2 h0 h1
    simp [makeRenderRequest, renderLoopAux, maxGetPanelRetries, h0, h1]
  · intro h
    have h0 := h 0
    have h1 := h 1
    have h2 := h 2
    have h3 := h 3
    simp [makeRenderRequest, renderLoopAux, maxGetPanelRetries, h0, h1,
      h2, h3]

/-- Witness for C6 at concrete outcome streams: an auth failure, a plain
client error, a retried 500, a retried timeout, and exhausted timeouts. -/
theorem render_retry_policy_witness :
    makeRenderRequest (fun _ => RenderOutcome.response 403 "no") 9 "panel"
        "u"
      = (Except.error (RenderError.authFailed "panel" 9 403 "u"
          (limitString "no" 200)), 1)
    ∧ makeRenderRequest (fun _ => RenderOutcome.response 400 "bad") 9
        "panel" "u"
      = (Except.error (if (400 : Nat) = 404 then
          RenderError.notFound "panel" 9 "u"
        else RenderError.clientError "panel" 9 400 "u"
          (limitString "bad" 200)), 1)
    ∧ makeRenderRequest
        (fun n => if n = 0 then RenderOutcome.response 503 "busy"
          else RenderOutcome.response 200 "png") 9 "panel" "u"
      = (Except.ok 1, 2)
    ∧ makeRenderRequest
        (fun n => if n = 0 then RenderOutcome.transportError true
          else RenderOutcome.response 200 "png") 9 "panel" "u"
      = (Except.ok 1, 2)
    ∧ makeRenderRequest (fun _ => RenderOutcome.transportError true) 9
        "panel" "u"
      = (Except.error (RenderError.transportFailed "panel" 9 "u"
          maxGetPanelRetries), maxGetPanelRetries + 1) := by
  refine ⟨(render_retry_policy _ 9 "panel" "u").1 403 "no" rfl (Or.inr rfl),
    (render_retry_policy _ 9 "panel" "u").2.1 400 "bad" rfl (by omega)
      (by omega) (by omega) (by omega),
    (render_retry_policy _ 9 "panel" "u").2.2.1 503 "busy" "png" rfl
      (by omega) rfl,
    (render_retry_policy _ 9 "panel" "u").2.2.2.1 true "png" rfl rfl,
    (render_retry_policy _ 9 "panel" "u").2.2.2.2 (fun _ => rfl)⟩

end Reporter

namespace Reporter

/-- Generate mirrors report.Generate (texTemplate.go lines 273-305),
parameterised by the outcome of each sequential stage (dashboard fetch,
image acquisition, tex creation, LaTeX run). The Bool records whether
Clean — removal of the report's temporary directory — was invoked before
returning. The source calls rep.Clean() on the dashboard, image and tex
error paths; on a LaTeX error it only logs the location of the temporary
files and returns the error without cleaning. -/
def Generate (tmpDir : String) (dashResult : Except String Dashboard)
    (imagesResult : Except String Unit) (texResult : Except String Unit)
    (latexResult : Except String String) : Except String String × Bool :=
  match dashResult with
  | Except.error e =>
    (Except.error ("error getting dashboard: " ++ e), true)
  | Except.ok _ =>
    match imagesResult with
    | Except.error e =>
      (Except.error ("error fetching panel images: " ++ e), true)
    | Except.ok _ =>
      match texResult with
      | Except.error e =>
        (Except.error ("error creating tex file: " ++ e
          ++ " (temp dir: " ++ tmpDir ++ ")"), true)
      | Except.ok _ =>
        match latexResult with
        | Except.error e =>
          (Except.error ("error running LaTeX: " ++ e), false)
        | Except.ok pdfFile => (Except.ok pdfFile, false)

/-- Dashboard value used by the C1 counterexample. -/
def c1Dashboard : Dashboard := decodedDashboard "t" "d" "u" [] []

/-- Counterexample for C1 as stated: when the dashboard fetch, the image
stage and the tex creation succeed but the LaTeX compiler fails, Generate
propagates the error WITHOUT invoking workspace cleanup (the source logs
the temporary directory and returns, with no Clean call on this path). -/
theorem generate_latex_no_cleanup_counterexample :
    Generate "tmp1" (Except.ok c1Dashboard) (Except.ok ()) (Except.ok ())
        (Except.error "exit status 1")
      = (Except.error "error running LaTeX: exit status 1", false) := rfl

/-- C1 (amended): the dashboard-fetch, image-stage and template-creation
error paths invoke workspace cleanup before propagating the error; the
compiler (LaTeX) error path propagates the error without cleanup, leaving
the workspace in place (its location is logged for debugging); success
performs no cleanup (the artifact is exposed and cleanup is the caller's
responsibility). -/
theorem generate_cleanup_policy (tmpDir : String) :
    (∀ e i t l, Generate tmpDir (Except.error e) i t l
      = (Except.error ("error getting dashboard: " ++ e), true))
    ∧ (∀ d e t l, Generate tmpDir (Except.ok d) (Except.error e) t l
      = (Except.error ("error fetching panel images: " ++ e), true))
    ∧ (∀ d e l, Generate tmpDir (Except.ok d) (Except.ok ())
        (Except.error e) l
      = (Except.error ("error creating tex file: " ++ e
          ++ " (temp dir: " ++ tmpDir ++ ")"), true))
    ∧ (∀ d e, Generate tmpDir (Except.ok d) (Except.ok ()) (Except.ok ())
        (Except.error e)
      = (Except.error ("error running LaTeX: " ++ e), false))
    ∧ (∀ d pdf, Generate tmpDir (Except.ok d) (Except.ok ())
        (Except.ok ()) (Except.ok pdf) = (Except.ok pdf, false)) :=
  ⟨fun _ _ _ _ => rfl, fun _ _ _ _ => rfl, fun _ _ _ => rfl,
    fun _ _ => rfl, fun _ _ => rfl⟩

end Reporter

namespace Reporter

/-- DownloadFailure carries what each failed download sends into the error
channel (texTemplate.go lines 373 and 397): the panel id, its title and
the underlying error message. -/
structure DownloadFailure where
  id : Int
  title : String
  msg : String
deriving DecidableEq, Repr

/-- errorChannelCap is the capacity of the buffered error channel created
at texTemplate.go line 348. -/
def errorChannelCap : Nat := 100

/-- FetchOutcome is the observable result of the image-acquisition stage:
the mkdir error return, a normal return (nil error) carrying the failures
drained from the channel and logged in the consolidated summary, or a
deadlock — the stage never returns. The deadlock case models Go channel
semantics: each failing download goroutine performs one blocking send on
the capacity-100 channel before its deferred wg.Done, and the channel is
drained only after wg.Wait (texTemplate.go lines 403-409); with more than
100 failures the extra senders block forever and wg.Wait never returns. -/
inductive FetchOutcome where
  | mkdirError : FetchOutcome
  | ok (failures : List DownloadFailure) : FetchOutcome
  | deadlock : FetchOutcome
deriving DecidableEq, Repr

/-- fetchImages mirrors report.fetchImages (texTemplate.go lines 340-417):
mkdir failure aborts; row layout schedules the non-text panels of every
row (in row order) and returns early when there are no rows; grid layout
schedules the non-text grid panels and returns early when there are none;
each scheduled download either succeeds or contributes one failure
(download p gives the error message, none meaning success); the stage
returns nil regardless of failures — unless more than errorChannelCap
downloads fail, in which case it deadlocks. The failure list is kept in
schedule order; the real channel order is nondeterministic, which no claim
depends on. -/
def fetchImages (mkdirOk : Bool) (useRowLayout : Bool) (d : Dashboard)
    (download : PanelData → Option String) : FetchOutcome :=
  if !mkdirOk then FetchOutcome.mkdirError
  else
    let scheduled :=
      if useRowLayout then
        let rows := d.GetRows.result
        if rows.isEmpty then none
        else some (((rows.map (fun r => r.contentPanels)).flatten).filter
          (fun p => p.type != "text"))
      else
        let ps := d.GetGridPanels.result
        if ps.isEmpty then none
        else some (ps.filter (fun p => p.type != "text"))
    match scheduled with
    | none => FetchOutcome.ok []
    | some panels =>
      let failures := panels.filterMap (fun p =>
        (download p).map (fun m =>
          { id := p.id, title := p.title, msg := m }))
      if errorChannelCap < failures.length then FetchOutcome.deadlock
      else FetchOutcome.ok failures

/-- Panel number i of the C2 failing input. -/
def c2Panel (i : Nat) : PanelData :=
  { id := Int.ofNat i, type := "graph", title := "p",
    gridPos := { h := 1, w := 1, x := 0, y := Int.ofNat i },
    collapsed := false }

/-- The C2 failing input: a dashboard with 101 renderable (non-text)
panels, in the processed state in which GetDashboard hands every dashboard
to the report (processPanelsAndRows has filled the caches). -/
def c2Dashboard : Dashboard :=
  { title := "t", description := "", uid := "u", panels := [], rows := [],
    processedPanels := (List.range 101).map c2Panel, processedRows := [] }

/-- C2 evaluated at the failing input: in grid layout, with the images
directory created and all 101 panel downloads failing, fetchImages
deadlocks — the 101st failing goroutine blocks on the full capacity-100
error channel, so the stage never returns success, contradicting the
claim that it returns success for every pattern of per-panel failures. -/
theorem fetchImages_deadlock_at_101_failures :
    fetchImages true false c2Dashboard (fun _ => some "connection refused")
      = FetchOutcome.deadlock := by decide

end Reporter
